import Mathlib

/-!
Shallow embedding of pymetar.py (sylvandb/pymetar), covering the report
decoder (WeatherReport._parse_report and its helpers), the coordinate
parser, the condition/cloud codecs and the derived-metric accessors.

Modelling conventions:
* Python strings are lists of characters (PyStr).
* Python floats are exact rationals; the float power operator `**` is
  abstracted as an explicit function argument where the source uses it.
* Fallible Python code returns Except values; PyErr names the exception
  classes that can escape the modelled code.
* Python None-able attributes are Option-typed fields.
-/

abbrev PyStr := List Char

/-- Python whitespace test (the character class used by str.split and
str.strip without arguments: space and the control characters 9 to 13). -/
def pyIsSpace (c : Char) : Bool := c.toNat = 32 || (9 ≤ c.toNat && c.toNat ≤ 13)

/-- ASCII digit test, as used by the numeric conversions and the [0-9]
regex character class. -/
def isDigCh (c : Char) : Bool := 48 ≤ c.toNat && c.toNat ≤ 57

/-- str.upper on one character, for ASCII letters (other characters are
returned unchanged). -/
def pyToUpper (c : Char) : Char :=
  if 97 ≤ c.toNat && c.toNat ≤ 122 then Char.ofNat (c.toNat - 32) else c

/-- str.strip(): drop leading and trailing whitespace. -/
def pyStrip (s : PyStr) : PyStr :=
  ((s.dropWhile pyIsSpace).reverse.dropWhile pyIsSpace).reverse

/-- str.split(sep) with a one-character separator and no maxsplit: empty
pieces are kept, and the empty string yields one empty piece. -/
def pySplitOn (sep : Char) : PyStr → List PyStr
  | [] => [[]]
  | c :: rest =>
    if c = sep then [] :: pySplitOn sep rest
    else
      match pySplitOn sep rest with
      | [] => [[c]]
      | p :: ps => (c :: p) :: ps

/-- Split at the first occurrence of sep: the pieces before and after it,
or none when sep does not occur.  str.split(sep, 1) returns the two
pieces in the some case and the whole string in the none case. -/
def pyBreakAt (sep : Char) : PyStr → Option (PyStr × PyStr)
  | [] => none
  | c :: rest =>
    if c = sep then some ([], rest)
    else (pyBreakAt sep rest).map (fun p => (c :: p.1, p.2))

/-- Fuel-driven worker for str.split(sep, maxsplit). -/
def pySplitChGo (sep : Char) : Nat → Option Nat → PyStr → List PyStr
  | 0, _, s => [s]
  | _ + 1, some 0, s => [s]
  | fuel + 1, m, s =>
    match pyBreakAt sep s with
    | none => [s]
    | some (pre, post) => pre :: pySplitChGo sep fuel (m.map (· - 1)) post

/-- str.split(sep, maxsplit) with a one-character separator; a none bound
means no maxsplit. -/
def pySplitChMax (sep : Char) (m : Option Nat) (s : PyStr) : List PyStr :=
  pySplitChGo sep (s.length + 1) m s

/-- Worker for str.split() without arguments; the accumulator holds the
characters of the current token in reverse order. -/
def pySplitWSAux : PyStr → PyStr → List PyStr
  | [], acc => if acc.isEmpty then [] else [acc.reverse]
  | c :: rest, acc =>
    if pyIsSpace c then
      if acc.isEmpty then pySplitWSAux rest []
      else acc.reverse :: pySplitWSAux rest []
    else pySplitWSAux rest (c :: acc)

/-- str.split() without arguments: split on whitespace runs, dropping
empty pieces. -/
def pySplitWS (s : PyStr) : List PyStr := pySplitWSAux s []

/-- Fuel-driven worker for str.split(None, maxsplit). -/
def pySplitWSMaxGo : Nat → Nat → PyStr → List PyStr
  | _, _, [] => []
  | _, 0, s => [s]
  | 0, _, s => [s]
  | fuel + 1, m + 1, s =>
    let tok := s.takeWhile (fun c => !pyIsSpace c)
    let rest := (s.dropWhile (fun c => !pyIsSpace c)).dropWhile pyIsSpace
    tok :: pySplitWSMaxGo fuel m rest

/-- str.split(None, maxsplit): whitespace split with a bound on the number
of splits; once the bound is reached, the remainder (with its leading
whitespace removed) becomes the final piece when it is non-empty. -/
def pySplitWSMax (m : Nat) (s : PyStr) : List PyStr :=
  pySplitWSMaxGo (s.length + 1) m (s.dropWhile pyIsSpace)

/-- str.startswith. -/
def pyStartsWith (p s : PyStr) : Bool := decide (s.take p.length = p)

/-- str.find: index of the first occurrence of needle, none if absent
(the source compares the Python result against -1). -/
def pyFind (needle : PyStr) : PyStr → Option Nat
  | [] => if needle.isEmpty then some 0 else none
  | c :: rest =>
    if pyStartsWith needle (c :: rest) then some 0
    else (pyFind needle rest).map (· + 1)

/-- Python substring membership `needle in hay`. -/
def pyContains (needle hay : PyStr) : Bool := (pyFind needle hay).isSome

/-- str.replace with one-character arguments. -/
def pyReplace (old new : Char) (s : PyStr) : PyStr :=
  s.map (fun c => if c = old then new else c)

/-- Value of an ASCII digit string. -/
def digitsToNat (s : PyStr) : Nat := s.foldl (fun n c => 10 * n + (c.toNat - 48)) 0

/-- A non-empty string of ASCII digits. -/
def allDigits (s : PyStr) : Bool := !s.isEmpty && s.all isDigCh

/-- Python int(str) on optionally signed ASCII digit strings with
surrounding whitespace; other int() notations are outside the modelled
domain and yield none (a ValueError at the call sites). -/
def pyIntStr (s : PyStr) : Option Int :=
  let t := pyStrip s
  if t.take 1 = ['-'] then
    if allDigits (t.drop 1) then some (-(digitsToNat (t.drop 1) : Int)) else none
  else if t.take 1 = ['+'] then
    if allDigits (t.drop 1) then some ((digitsToNat (t.drop 1) : Int)) else none
  else if allDigits t then some ((digitsToNat t : Int)) else none

/-- Unsigned decimal part of float(str): digits with at most one point. -/
def pyFloatFrac (t : PyStr) : Option ℚ :=
  match pySplitOn '.' t with
  | [a] => if allDigits a then some ((digitsToNat a : ℚ)) else none
  | [a, b] =>
    if !(a ++ b).isEmpty && (a ++ b).all isDigCh then
      some ((digitsToNat a : ℚ) + (digitsToNat b : ℚ) / (10 : ℚ) ^ b.length)
    else none
  | _ => none

/-- Python float(str) on optionally signed decimal digit strings with
surrounding whitespace; exponent and special notations are outside the
modelled domain and yield none (a ValueError at the call sites). -/
def pyFloatStr (s : PyStr) : Option ℚ :=
  let t := pyStrip s
  if t.take 1 = ['-'] then (pyFloatFrac (t.drop 1)).map (fun q => -q)
  else if t.take 1 = ['+'] then pyFloatFrac (t.drop 1)
  else pyFloatFrac t

/-- Python `x or y` on None-able strings: None and the empty string are
falsy. -/
def pyOrS (a b : Option PyStr) : Option PyStr :=
  match a with
  | some s => if s.isEmpty then b else some s
  | none => b

/-- Python exceptions that can escape the modelled code.  EmptyReport and
GarbledReport stand for the module's EmptyReportException and
GarbledReportException. -/
inductive PyErr
  | emptyReport
  | garbledReport
  | valueError
  | indexError
  | typeError
deriving DecidableEq

/-- The FullReport attribute: either a text report or an object on which
the string split fails with TypeError/UnicodeDecodeError, i.e. a value
that cannot be interpreted as valid character data. -/
inductive RawText
  | text : PyStr → RawText
  | garbled : RawText
deriving DecidableEq

instance {ε α : Type} [DecidableEq ε] [DecidableEq α] : DecidableEq (Except ε α) :=
  fun x y =>
    match x, y with
    | Except.ok a, Except.ok b =>
      if h : a = b then Decidable.isTrue (congrArg Except.ok h)
      else Decidable.isFalse (fun hc => h (Except.ok.inj hc))
    | Except.error a, Except.error b =>
      if h : a = b then Decidable.isTrue (congrArg Except.error h)
      else Decidable.isFalse (fun hc => h (Except.error.inj hc))
    | Except.ok _, Except.error _ => Decidable.isFalse (fun hc => Except.noConfusion hc)
    | Except.error _, Except.ok _ => Decidable.isFalse (fun hc => Except.noConfusion hc)

/-- A qualifier entry of the phenomenon table: either a plain description
string or a (name, pixmap) pair marking a storm variant (the source
distinguishes the two by isinstance checks on tuples). -/
inductive QualEntry
  | plain : PyStr → QualEntry
  | storm : PyStr → PyStr → QualEntry
deriving DecidableEq

/-- Python dict lookup (dict.get with default None) over an association
list with distinct keys. -/
def tblLookup {α : Type} : List (PyStr × α) → PyStr → Option α
  | [], _ => none
  | (k, v) :: rest, key => if k = key then some v else tblLookup rest key

/-- The _WEATHER_CONDITIONS table: phenomenon code to
(name, pixmap, qualifier map). -/
def WEATHER_CONDITIONS : List (PyStr × PyStr × PyStr × List (PyStr × QualEntry)) := [
  (("DZ".data), ("Drizzle".data), ("rain".data), [
    (("".data), QualEntry.plain ("Moderate drizzle".data)),
    (("-".data), QualEntry.plain ("Light drizzle".data)),
    (("+".data), QualEntry.plain ("Heavy drizzle".data)),
    (("VC".data), QualEntry.plain ("Drizzle in the vicinity".data)),
    (("MI".data), QualEntry.plain ("Shallow drizzle".data)),
    (("BC".data), QualEntry.plain ("Patches of drizzle".data)),
    (("PR".data), QualEntry.plain ("Partial drizzle".data)),
    (("TS".data), QualEntry.storm ("Thunderstorm".data) ("storm".data)),
    (("BL".data), QualEntry.plain ("Windy drizzle".data)),
    (("SH".data), QualEntry.plain ("Showers".data)),
    (("DR".data), QualEntry.plain ("Drifting drizzle".data)),
    (("FZ".data), QualEntry.plain ("Freezing drizzle".data))]),
  (("RA".data), ("Rain".data), ("rain".data), [
    (("".data), QualEntry.plain ("Moderate rain".data)),
    (("-".data), QualEntry.plain ("Light rain".data)),
    (("+".data), QualEntry.plain ("Heavy rain".data)),
    (("VC".data), QualEntry.plain ("Rain in the vicinity".data)),
    (("MI".data), QualEntry.plain ("Shallow rain".data)),
    (("BC".data), QualEntry.plain ("Patches of rain".data)),
    (("PR".data), QualEntry.plain ("Partial rainfall".data)),
    (("TS".data), QualEntry.storm ("Thunderstorm".data) ("storm".data)),
    (("BL".data), QualEntry.plain ("Blowing rainfall".data)),
    (("SH".data), QualEntry.plain ("Rain showers".data)),
    (("DR".data), QualEntry.plain ("Drifting rain".data)),
    (("FZ".data), QualEntry.plain ("Freezing rain".data))]),
  (("SN".data), ("Snow".data), ("snow".data), [
    (("".data), QualEntry.plain ("Moderate snow".data)),
    (("-".data), QualEntry.plain ("Light snow".data)),
    (("+".data), QualEntry.plain ("Heavy snow".data)),
    (("VC".data), QualEntry.plain ("Snow in the vicinity".data)),
    (("MI".data), QualEntry.plain ("Shallow snow".data)),
    (("BC".data), QualEntry.plain ("Patches of snow".data)),
    (("PR".data), QualEntry.plain ("Partial snowfall".data)),
    (("TS".data), QualEntry.storm ("Snowstorm".data) ("storm".data)),
    (("BL".data), QualEntry.plain ("Blowing snowfall".data)),
    (("SH".data), QualEntry.plain ("Snowfall showers".data)),
    (("DR".data), QualEntry.plain ("Drifting snow".data)),
    (("FZ".data), QualEntry.plain ("Freezing snow".data))]),
  (("SG".data), ("Snow grains".data), ("snow".data), [
    (("".data), QualEntry.plain ("Moderate snow grains".data)),
    (("-".data), QualEntry.plain ("Light snow grains".data)),
    (("+".data), QualEntry.plain ("Heavy snow grains".data)),
    (("VC".data), QualEntry.plain ("Snow grains in the vicinity".data)),
    (("MI".data), QualEntry.plain ("Shallow snow grains".data)),
    (("BC".data), QualEntry.plain ("Patches of snow grains".data)),
    (("PR".data), QualEntry.plain ("Partial snow grains".data)),
    (("TS".data), QualEntry.storm ("Snowstorm".data) ("storm".data)),
    (("BL".data), QualEntry.plain ("Blowing snow grains".data)),
    (("SH".data), QualEntry.plain ("Snow grain showers".data)),
    (("DR".data), QualEntry.plain ("Drifting snow grains".data)),
    (("FZ".data), QualEntry.plain ("Freezing snow grains".data))]),
  (("IC".data), ("Ice crystals".data), ("snow".data), [
    (("".data), QualEntry.plain ("Moderate ice crystals".data)),
    (("-".data), QualEntry.plain ("Few ice crystals".data)),
    (("+".data), QualEntry.plain ("Heavy ice crystals".data)),
    (("VC".data), QualEntry.plain ("Ice crystals in the vicinity".data)),
    (("BC".data), QualEntry.plain ("Patches of ice crystals".data)),
    (("PR".data), QualEntry.plain ("Partial ice crystals".data)),
    (("TS".data), QualEntry.storm ("Ice crystal storm".data) ("storm".data)),
    (("BL".data), QualEntry.plain ("Blowing ice crystals".data)),
    (("SH".data), QualEntry.plain ("Showers of ice crystals".data)),
    (("DR".data), QualEntry.plain ("Drifting ice crystals".data)),
    (("FZ".data), QualEntry.plain ("Freezing ice crystals".data))]),
  (("PE".data), ("Ice pellets".data), ("snow".data), [
    (("".data), QualEntry.plain ("Moderate ice pellets".data)),
    (("-".data), QualEntry.plain ("Few ice pellets".data)),
    (("+".data), QualEntry.plain ("Heavy ice pellets".data)),
    (("VC".data), QualEntry.plain ("Ice pellets in the vicinity".data)),
    (("MI".data), QualEntry.plain ("Shallow ice pellets".data)),
    (("BC".data), QualEntry.plain ("Patches of ice pellets".data)),
    (("PR".data), QualEntry.plain ("Partial ice pellets".data)),
    (("TS".data), QualEntry.storm ("Ice pellets storm".data) ("storm".data)),
    (("BL".data), QualEntry.plain ("Blowing ice pellets".data)),
    (("SH".data), QualEntry.plain ("Showers of ice pellets".data)),
    (("DR".data), QualEntry.plain ("Drifting ice pellets".data)),
    (("FZ".data), QualEntry.plain ("Freezing ice pellets".data))]),
  (("GR".data), ("Hail".data), ("rain".data), [
    (("".data), QualEntry.plain ("Moderate hail".data)),
    (("-".data), QualEntry.plain ("Light hail".data)),
    (("+".data), QualEntry.plain ("Heavy hail".data)),
    (("VC".data), QualEntry.plain ("Hail in the vicinity".data)),
    (("MI".data), QualEntry.plain ("Shallow hail".data)),
    (("BC".data), QualEntry.plain ("Patches of hail".data)),
    (("PR".data), QualEntry.plain ("Partial hail".data)),
    (("TS".data), QualEntry.storm ("Hailstorm".data) ("storm".data)),
    (("BL".data), QualEntry.plain ("Blowing hail".data)),
    (("SH".data), QualEntry.plain ("Hail showers".data)),
    (("DR".data), QualEntry.plain ("Drifting hail".data)),
    (("FZ".data), QualEntry.plain ("Freezing hail".data))]),
  (("GS".data), ("Small hail".data), ("rain".data), [
    (("".data), QualEntry.plain ("Moderate small hail".data)),
    (("-".data), QualEntry.plain ("Light small hail".data)),
    (("+".data), QualEntry.plain ("Heavy small hail".data)),
    (("VC".data), QualEntry.plain ("Small hail in the vicinity".data)),
    (("MI".data), QualEntry.plain ("Shallow small hail".data)),
    (("BC".data), QualEntry.plain ("Patches of small hail".data)),
    (("PR".data), QualEntry.plain ("Partial small hail".data)),
    (("TS".data), QualEntry.storm ("Small hailstorm".data) ("storm".data)),
    (("BL".data), QualEntry.plain ("Blowing small hail".data)),
    (("SH".data), QualEntry.plain ("Showers of small hail".data)),
    (("DR".data), QualEntry.plain ("Drifting small hail".data)),
    (("FZ".data), QualEntry.plain ("Freezing small hail".data))]),
  (("UP".data), ("Precipitation".data), ("rain".data), [
    (("".data), QualEntry.plain ("Moderate precipitation".data)),
    (("-".data), QualEntry.plain ("Light precipitation".data)),
    (("+".data), QualEntry.plain ("Heavy precipitation".data)),
    (("VC".data), QualEntry.plain ("Precipitation in the vicinity".data)),
    (("MI".data), QualEntry.plain ("Shallow precipitation".data)),
    (("BC".data), QualEntry.plain ("Patches of precipitation".data)),
    (("PR".data), QualEntry.plain ("Partial precipitation".data)),
    (("TS".data), QualEntry.storm ("Unknown thunderstorm".data) ("storm".data)),
    (("BL".data), QualEntry.plain ("Blowing precipitation".data)),
    (("SH".data), QualEntry.plain ("Showers, type unknown".data)),
    (("DR".data), QualEntry.plain ("Drifting precipitation".data)),
    (("FZ".data), QualEntry.plain ("Freezing precipitation".data))]),
  (("BR".data), ("Mist".data), ("fog".data), [
    (("".data), QualEntry.plain ("Moderate mist".data)),
    (("-".data), QualEntry.plain ("Light mist".data)),
    (("+".data), QualEntry.plain ("Thick mist".data)),
    (("VC".data), QualEntry.plain ("Mist in the vicinity".data)),
    (("MI".data), QualEntry.plain ("Shallow mist".data)),
    (("BC".data), QualEntry.plain ("Patches of mist".data)),
    (("PR".data), QualEntry.plain ("Partial mist".data)),
    (("BL".data), QualEntry.plain ("Mist with wind".data)),
    (("DR".data), QualEntry.plain ("Drifting mist".data)),
    (("FZ".data), QualEntry.plain ("Freezing mist".data))]),
  (("FG".data), ("Fog".data), ("fog".data), [
    (("".data), QualEntry.plain ("Moderate fog".data)),
    (("-".data), QualEntry.plain ("Light fog".data)),
    (("+".data), QualEntry.plain ("Thick fog".data)),
    (("VC".data), QualEntry.plain ("Fog in the vicinity".data)),
    (("MI".data), QualEntry.plain ("Shallow fog".data)),
    (("BC".data), QualEntry.plain ("Patches of fog".data)),
    (("PR".data), QualEntry.plain ("Partial fog".data)),
    (("BL".data), QualEntry.plain ("Fog with wind".data)),
    (("DR".data), QualEntry.plain ("Drifting fog".data)),
    (("FZ".data), QualEntry.plain ("Freezing fog".data))]),
  (("FU".data), ("Smoke".data), ("fog".data), [
    (("".data), QualEntry.plain ("Moderate smoke".data)),
    (("-".data), QualEntry.plain ("Thin smoke".data)),
    (("+".data), QualEntry.plain ("Thick smoke".data)),
    (("VC".data), QualEntry.plain ("Smoke in the vicinity".data)),
    (("MI".data), QualEntry.plain ("Shallow smoke".data)),
    (("BC".data), QualEntry.plain ("Patches of smoke".data)),
    (("PR".data), QualEntry.plain ("Partial smoke".data)),
    (("TS".data), QualEntry.storm ("Smoke w/ thunders".data) ("storm".data)),
    (("BL".data), QualEntry.plain ("Smoke with wind".data)),
    (("DR".data), QualEntry.plain ("Drifting smoke".data))]),
  (("VA".data), ("Volcanic ash".data), ("fog".data), [
    (("".data), QualEntry.plain ("Moderate volcanic ash".data)),
    (("+".data), QualEntry.plain ("Thick volcanic ash".data)),
    (("VC".data), QualEntry.plain ("Volcanic ash in the vicinity".data)),
    (("MI".data), QualEntry.plain ("Shallow volcanic ash".data)),
    (("BC".data), QualEntry.plain ("Patches of volcanic ash".data)),
    (("PR".data), QualEntry.plain ("Partial volcanic ash".data)),
    (("TS".data), QualEntry.storm ("Volcanic ash w/ thunders".data) ("storm".data)),
    (("BL".data), QualEntry.plain ("Blowing volcanic ash".data)),
    (("SH".data), QualEntry.plain ("Showers of volcanic ash".data)),
    (("DR".data), QualEntry.plain ("Drifting volcanic ash".data)),
    (("FZ".data), QualEntry.plain ("Freezing volcanic ash".data))]),
  (("SA".data), ("Sand".data), ("fog".data), [
    (("".data), QualEntry.plain ("Moderate sand".data)),
    (("-".data), QualEntry.plain ("Light sand".data)),
    (("+".data), QualEntry.plain ("Heavy sand".data)),
    (("VC".data), QualEntry.plain ("Sand in the vicinity".data)),
    (("BC".data), QualEntry.plain ("Patches of sand".data)),
    (("PR".data), QualEntry.plain ("Partial sand".data)),
    (("BL".data), QualEntry.plain ("Blowing sand".data)),
    (("DR".data), QualEntry.plain ("Drifting sand".data))]),
  (("HZ".data), ("Haze".data), ("fog".data), [
    (("".data), QualEntry.plain ("Moderate haze".data)),
    (("-".data), QualEntry.plain ("Light haze".data)),
    (("+".data), QualEntry.plain ("Thick haze".data)),
    (("VC".data), QualEntry.plain ("Haze in the vicinity".data)),
    (("MI".data), QualEntry.plain ("Shallow haze".data)),
    (("BC".data), QualEntry.plain ("Patches of haze".data)),
    (("PR".data), QualEntry.plain ("Partial haze".data)),
    (("BL".data), QualEntry.plain ("Haze with wind".data)),
    (("DR".data), QualEntry.plain ("Drifting haze".data)),
    (("FZ".data), QualEntry.plain ("Freezing haze".data))]),
  (("PY".data), ("Sprays".data), ("fog".data), [
    (("".data), QualEntry.plain ("Moderate sprays".data)),
    (("-".data), QualEntry.plain ("Light sprays".data)),
    (("+".data), QualEntry.plain ("Heavy sprays".data)),
    (("VC".data), QualEntry.plain ("Sprays in the vicinity".data)),
    (("MI".data), QualEntry.plain ("Shallow sprays".data)),
    (("BC".data), QualEntry.plain ("Patches of sprays".data)),
    (("PR".data), QualEntry.plain ("Partial sprays".data)),
    (("BL".data), QualEntry.plain ("Blowing sprays".data)),
    (("DR".data), QualEntry.plain ("Drifting sprays".data)),
    (("FZ".data), QualEntry.plain ("Freezing sprays".data))]),
  (("DU".data), ("Dust".data), ("fog".data), [
    (("".data), QualEntry.plain ("Moderate dust".data)),
    (("-".data), QualEntry.plain ("Light dust".data)),
    (("+".data), QualEntry.plain ("Heavy dust".data)),
    (("VC".data), QualEntry.plain ("Dust in the vicinity".data)),
    (("BC".data), QualEntry.plain ("Patches of dust".data)),
    (("PR".data), QualEntry.plain ("Partial dust".data)),
    (("BL".data), QualEntry.plain ("Blowing dust".data)),
    (("DR".data), QualEntry.plain ("Drifting dust".data))]),
  (("SQ".data), ("Squall".data), ("storm".data), [
    (("".data), QualEntry.plain ("Moderate squall".data)),
    (("-".data), QualEntry.plain ("Light squall".data)),
    (("+".data), QualEntry.plain ("Heavy squall".data)),
    (("VC".data), QualEntry.plain ("Squall in the vicinity".data)),
    (("PR".data), QualEntry.plain ("Partial squall".data)),
    (("TS".data), QualEntry.plain ("Thunderous squall".data)),
    (("BL".data), QualEntry.plain ("Blowing squall".data)),
    (("DR".data), QualEntry.plain ("Drifting squall".data)),
    (("FZ".data), QualEntry.plain ("Freezing squall".data))]),
  (("SS".data), ("Sandstorm".data), ("fog".data), [
    (("".data), QualEntry.plain ("Moderate sandstorm".data)),
    (("-".data), QualEntry.plain ("Light sandstorm".data)),
    (("+".data), QualEntry.plain ("Heavy sandstorm".data)),
    (("VC".data), QualEntry.plain ("Sandstorm in the vicinity".data)),
    (("MI".data), QualEntry.plain ("Shallow sandstorm".data)),
    (("PR".data), QualEntry.plain ("Partial sandstorm".data)),
    (("TS".data), QualEntry.storm ("Thunderous sandstorm".data) ("storm".data)),
    (("BL".data), QualEntry.plain ("Blowing sandstorm".data)),
    (("DR".data), QualEntry.plain ("Drifting sandstorm".data)),
    (("FZ".data), QualEntry.plain ("Freezing sandstorm".data))]),
  (("DS".data), ("Duststorm".data), ("fog".data), [
    (("".data), QualEntry.plain ("Moderate duststorm".data)),
    (("-".data), QualEntry.plain ("Light duststorm".data)),
    (("+".data), QualEntry.plain ("Heavy duststorm".data)),
    (("VC".data), QualEntry.plain ("Duststorm in the vicinity".data)),
    (("MI".data), QualEntry.plain ("Shallow duststorm".data)),
    (("PR".data), QualEntry.plain ("Partial duststorm".data)),
    (("TS".data), QualEntry.storm ("Thunderous duststorm".data) ("storm".data)),
    (("BL".data), QualEntry.plain ("Blowing duststorm".data)),
    (("DR".data), QualEntry.plain ("Drifting duststorm".data)),
    (("FZ".data), QualEntry.plain ("Freezing duststorm".data))]),
  (("PO".data), ("Dustwhirls".data), ("fog".data), [
    (("".data), QualEntry.plain ("Moderate dustwhirls".data)),
    (("-".data), QualEntry.plain ("Light dustwhirls".data)),
    (("+".data), QualEntry.plain ("Heavy dustwhirls".data)),
    (("VC".data), QualEntry.plain ("Dustwhirls in the vicinity".data)),
    (("MI".data), QualEntry.plain ("Shallow dustwhirls".data)),
    (("BC".data), QualEntry.plain ("Patches of dustwhirls".data)),
    (("PR".data), QualEntry.plain ("Partial dustwhirls".data)),
    (("BL".data), QualEntry.plain ("Blowing dustwhirls".data)),
    (("DR".data), QualEntry.plain ("Drifting dustwhirls".data))]),
  (("+FC".data), ("Tornado".data), ("storm".data), [
    (("".data), QualEntry.plain ("Moderate tornado".data)),
    (("+".data), QualEntry.plain ("Raging tornado".data)),
    (("VC".data), QualEntry.plain ("Tornado in the vicinity".data)),
    (("PR".data), QualEntry.plain ("Partial tornado".data)),
    (("TS".data), QualEntry.plain ("Thunderous tornado".data)),
    (("BL".data), QualEntry.plain ("Tornado".data)),
    (("DR".data), QualEntry.plain ("Drifting tornado".data)),
    (("FZ".data), QualEntry.plain ("Freezing tornado".data))]),
  (("FC".data), ("Funnel cloud".data), ("fog".data), [
    (("".data), QualEntry.plain ("Moderate funnel cloud".data)),
    (("-".data), QualEntry.plain ("Light funnel cloud".data)),
    (("+".data), QualEntry.plain ("Thick funnel cloud".data)),
    (("VC".data), QualEntry.plain ("Funnel cloud in the vicinity".data)),
    (("MI".data), QualEntry.plain ("Shallow funnel cloud".data)),
    (("BC".data), QualEntry.plain ("Patches of funnel cloud".data)),
    (("PR".data), QualEntry.plain ("Partial funnel cloud".data)),
    (("BL".data), QualEntry.plain ("Funnel cloud w/ wind".data)),
    (("DR".data), QualEntry.plain ("Drifting funnel cloud".data))])]

/-- The CLOUDTYPES table: cloud-type code to descriptive name. -/
def CLOUDTYPES : List (PyStr × PyStr) := [
  (("ACC".data), ("altocumulus castellanus".data)),
  (("ACSL".data), ("standing lenticular altocumulus".data)),
  (("CB".data), ("cumulonimbus".data)),
  (("CBMAM".data), ("cumulonimbus mammatus".data)),
  (("CCSL".data), ("standing lenticular cirrocumulus".data)),
  (("CU".data), ("cumulus".data)),
  (("SCSL".data), ("standing lenticular stratocumulus".data)),
  (("SC".data), ("stratocumulus".data)),
  (("TCU".data), ("towering cumulus".data))]

/-- Strip a literal pattern from the front of a string, when present. -/
def stripPre (p s : PyStr) : Option PyStr :=
  if s.take p.length = p then some (s.drop p.length) else none

/-- The qualifier alternatives of COND_RE_STR. -/
def condQualCodes : List PyStr :=
  [("VC".data), ("MI".data), ("BC".data), ("PR".data), ("TS".data),
   ("BL".data), ("SH".data), ("DR".data), ("FZ".data)]

/-- The phenomenon alternatives of COND_RE_STR (the last one also allows a
leading plus sign, so +FC is listed as well). -/
def condPhenCodes : List PyStr :=
  [("DZ".data), ("RA".data), ("SN".data), ("SG".data), ("IC".data),
   ("PE".data), ("GR".data), ("GS".data), ("UP".data), ("BR".data),
   ("FG".data), ("FU".data), ("VA".data), ("SA".data), ("HZ".data),
   ("PY".data), ("DU".data), ("SQ".data), ("SS".data), ("DS".data),
   ("PO".data), ("FC".data), ("+FC".data)]

/-- Whole-string match against COND_RE_STR
(^[-+]?(VC|MI|...)?(DZ|RA|...|\+?FC)$): an optional sign, an optional
qualifier and a phenomenon code.  Since the pattern is anchored at both
ends, re.match succeeds exactly on strings in this language and the
matched group is the whole string. -/
def condMatch (s : PyStr) : Bool :=
  ([[], ['+'], ['-']] : List PyStr).any (fun sg =>
    match stripPre sg s with
    | none => false
    | some r1 =>
      (([] : PyStr) :: condQualCodes).any (fun q =>
        match stripPre q r1 with
        | none => false
        | some r2 => condPhenCodes.any (fun p => decide (r2 = p))))

/-- The coverage alternatives of CLOUD_RE_STR. -/
def cloudCoverCodes : List PyStr :=
  [("CAVOK".data), ("CLR".data), ("SKC".data), ("BKN".data),
   ("SCT".data), ("FEW".data), ("OVC".data), ("NSC".data)]

/-- The cloud-type alternatives of CLOUD_RE_STR. -/
def cloudTypeCodes : List PyStr :=
  [("TCU".data), ("CU".data), ("CB".data), ("SC".data), ("CBMAM".data),
   ("ACC".data), ("SCSL".data), ("CCSL".data), ("ACSL".data)]

/-- Whole-string match against CLOUD_RE_STR
(^(CAVOK|CLR|...)([0-9]{3})?(TCU|CU|...)?$): a coverage token, an
optional three-digit height and an optional cloud type. -/
def cloudMatch (s : PyStr) : Bool :=
  cloudCoverCodes.any (fun cov =>
    match stripPre cov s with
    | none => false
    | some r1 =>
      let opts : List PyStr :=
        if decide (3 ≤ r1.length) && (r1.take 3).all isDigCh then [r1, r1.drop 3]
        else [r1]
      opts.any (fun r2 => r2.isEmpty || cloudTypeCodes.any (fun t => decide (r2 = t))))

/-- _match_WeatherPart: the whitespace-separated groups of the encoded
METAR code that match the anchored regular expression (modelled by the
decision function), in order; none stored yields no matches. -/
def match_WeatherPart (matcher : PyStr → Bool) (raw : Option PyStr) : List PyStr :=
  match raw with
  | none => []
  | some code => (pySplitWS code).filter matcher

/-- One loop iteration of _extractCloudInformation: update the running
sky-type/pixmap guess from the first three characters and take the first
recognized cloud-type suffix (characters from position 6 on). -/
def cloudFold (acc : Option PyStr × Option PyStr × Option PyStr) (w : PyStr) :
    Option PyStr × Option PyStr × Option PyStr :=
  let stype := w.take 3
  let skypix : Option (PyStr × PyStr) :=
    if stype = ("CLR".data) ∨ stype = ("SKC".data) ∨ stype = ("CAV".data) ∨ stype = ("NSC".data) then
      some (("Clear sky".data), ("sun".data))
    else if stype = ("BKN".data) then some (("Broken clouds".data), ("suncloud".data))
    else if stype = ("SCT".data) then some (("Scattered clouds".data), ("suncloud".data))
    else if stype = ("FEW".data) then some (("Few clouds".data), ("suncloud".data))
    else if stype = ("OVC".data) then some (("Overcast".data), ("cloud".data))
    else none
  let sky := match skypix with | some sp => some sp.1 | none => acc.1
  let px := match skypix with | some sp => some sp.2 | none => acc.2.2
  let ct := if acc.2.1 = none then tblLookup CLOUDTYPES (w.drop 6) else acc.2.1
  (sky, ct, px)

/-- _extractCloudInformation: (sky type, cloud type, pixmap) accumulated
over all matching cloud groups. -/
def extractCloudInformation (raw : Option PyStr) :
    Option PyStr × Option PyStr × Option PyStr :=
  (match_WeatherPart cloudMatch raw).foldl cloudFold (none, none, none)

/-- The qualifier/phenomenon segmentation of one matching condition group
(_extractSkyConditions): a leading sign is stripped when the group is
longer than 3 characters; the qualifier length is 1 for a remaining
leading sign, 0 for codes shorter than 4 characters and 2 otherwise; the
phenomenon is the following slice of at most 4 characters. -/
def condSegment (wcond : PyStr) : PyStr × PyStr :=
  let w :=
    if decide (3 < wcond.length) && (pyStartsWith (['+']) wcond || pyStartsWith (['-']) wcond)
    then wcond.drop 1 else wcond
  let pphen : Nat :=
    if pyStartsWith (['+']) w || pyStartsWith (['-']) w then 1
    else if w.length < 4 then 0
    else 2
  (w.take pphen, (w.drop pphen).take 4)

/-- The loop of _extractSkyConditions: the first matching group whose
phenomenon slice is in the table determines the result; a storm variant
carries its own pixmap, otherwise the phenomenon pixmap is used, and an
unknown qualifier falls back to the phenomenon name. -/
def condLoop : List PyStr → Option (PyStr × PyStr)
  | [] => none
  | w :: rest =>
    let sq := condSegment w
    match tblLookup WEATHER_CONDITIONS sq.2 with
    | none => condLoop rest
    | some npq =>
      match tblLookup npq.2.2 sq.1 with
      | some (QualEntry.plain t) => some (t, npq.2.1)
      | some (QualEntry.storm n p) => some (n, p)
      | none => some (npq.1, npq.2.1)

/-- _extractSkyConditions: description and pixmap from the encoded code. -/
def extractSkyConditions (raw : Option PyStr) : Option (PyStr × PyStr) :=
  condLoop (match_WeatherPart condMatch raw)

/-- _metar_to_iso8601: None or empty input yields None; otherwise the
first two whitespace tokens are unpacked as date and hour and the date is
unpacked into three dot-separated pieces (a ValueError escapes when the
counts do not fit), producing YYYY-MM-DD HH:MM:00Z. -/
def metar_to_iso8601 (metardate : Option PyStr) : Except PyErr (Option PyStr) :=
  match metardate with
  | none => Except.ok none
  | some s =>
    if s.isEmpty then Except.ok none
    else
      match pySplitWS s with
      | date :: hour :: _ =>
        (match pySplitOn '.' date with
         | [year, month, day] =>
           Except.ok (some (year ++ '-' :: month ++ '-' :: day ++ ' ' ::
             (hour.take 2 ++ ':' :: ((hour.drop 2).take 2 ++ (":00Z".data)))))
         | _ => Except.error PyErr.valueError)
      | _ => Except.error PyErr.valueError

/-- _parse_lat_long: METAR DMS notation to a signed float.  None or empty
input yields None; the last character of the last dash-separated segment
is the compass direction (IndexError when that segment is empty); the
segments are float()-converted (ValueError on failure) and accumulated as
degrees, minutes and seconds; W or S negates. -/
def parse_lat_long (latlong : Option PyStr) : Except PyErr (Option ℚ) :=
  match latlong with
  | none => Except.ok none
  | some ll =>
    if ll.isEmpty then Except.ok none
    else
      let cap_inp := pyStrip (ll.map pyToUpper)
      let elements := pySplitOn '-' cap_inp
      match elements.getLast? with
      | none => Except.error PyErr.indexError
      | some lastSeg =>
        match lastSeg.getLast? with
        | none => Except.error PyErr.indexError
        | some compass_dir =>
          let elements := elements.dropLast ++ [lastSeg.dropLast]
          match elements.head? with
          | none => Except.error PyErr.indexError
          | some e0 =>
            match pyFloatStr e0 with
            | none => Except.error PyErr.valueError
            | some c0 =>
              let res : Except PyErr ℚ :=
                if 1 < elements.length then
                  match pyFloatStr (elements[1]?.getD []) with
                  | none => Except.error PyErr.valueError
                  | some c1 =>
                    if 2 < elements.length then
                      match pyFloatStr (elements[2]?.getD []) with
                      | none => Except.error PyErr.valueError
                      | some c2 => Except.ok (c0 + c1 / 60 + c2 / 3600)
                    else Except.ok (c0 + c1 / 60)
                else Except.ok c0
              res.map (fun v => some (if compass_dir = 'W' ∨ compass_dir = 'S' then -v else v))

/-- The WeatherReport attribute record as laid out by _clearallfields:
every parser-set attribute is None until the parser assigns it.  w_chill
and w_chillf model the memoization slots _w_chill and _w_chillf. -/
structure WeatherReport where
  parsed : Bool
  FullReport : Option RawText
  ReportURL : Option PyStr
  StationID : Option PyStr
  StationName : Option PyStr
  StationCity : Option PyStr
  StationCountry : Option PyStr
  StationLatitude : Option PyStr
  StationLongitude : Option PyStr
  StationAltitude : Option Int
  Cycle : Option Int
  Time : Option PyStr
  Weather : Option PyStr
  Humidity : Option Int
  Pixmap : Option PyStr
  TemperatureCelsius : Option ℚ
  TemperatureFahrenheit : Option ℚ
  DewPointCelsius : Option ℚ
  DewPointFahrenheit : Option ℚ
  WindSpeedMilesPerHour : Option ℚ
  WindSpeedKnots : Option ℚ
  WindDirection : Option Int
  WindCompass : Option PyStr
  VisibilityMiles : Option ℚ
  PressurehPa : Option ℚ
  PressureInHg : Option ℚ
  RawMetarCode : Option PyStr
  SkyConditions : Option PyStr
  Conditions : Option (Option PyStr × Option PyStr)
  Cloudinfo : Option (Option PyStr × Option PyStr)
  Cloudtype : Option PyStr
  w_chill : Option ℚ
  w_chillf : Option ℚ
deriving DecidableEq

/-- __init__: clear all fields, then store the wanted station id, url and
report. -/
def mkWeatherReport (code url : Option PyStr) (report : Option RawText) : WeatherReport :=
  { parsed := false, FullReport := report, ReportURL := url, StationID := code,
    StationName := none, StationCity := none, StationCountry := none,
    StationLatitude := none, StationLongitude := none, StationAltitude := none,
    Cycle := none, Time := none, Weather := none, Humidity := none, Pixmap := none,
    TemperatureCelsius := none, TemperatureFahrenheit := none,
    DewPointCelsius := none, DewPointFahrenheit := none,
    WindSpeedMilesPerHour := none, WindSpeedKnots := none,
    WindDirection := none, WindCompass := none,
    VisibilityMiles := none, PressurehPa := none, PressureInHg := none,
    RawMetarCode := none, SkyConditions := none, Conditions := none,
    Cloudinfo := none, Cloudtype := none, w_chill := none, w_chillf := none }

/-- The station-identification line handler of _parse_report: the text
before the parenthesized id is the location (split at its last comma into
city and country by reversing), the text after it holds the coordinate
tokens at whitespace positions 1 to 3 (ValueError when missing); the
letter O is corrected to the digit 0 before the tokens are stored, and
the altitude (with its trailing M cut off) falls back to None when int()
fails. -/
def stationLine (r : WeatherReport) (sid header data : PyStr) : Except PyErr WeatherReport :=
  match pyFind ('(' :: (sid ++ [')'])) header with
  | none => Except.error PyErr.indexError
  | some id_offset =>
    let loc := pyStrip (data.take id_offset)
    let cc : PyStr × PyStr × PyStr :=
      match pyBreakAt ',' loc.reverse with
      | some rp => (rp.2, rp.1, data.drop id_offset)
      | none => ([], [], data)
    match pySplitWS cc.2.2 with
    | _ :: lat :: lng :: alt :: _ =>
      let lat := pyReplace 'O' '0' lat
      let lng := pyReplace 'O' '0' lng
      let alt := pyReplace 'O' '0' alt
      Except.ok { r with
        StationCity := some (pyStrip cc.1).reverse,
        StationCountry := some (pyStrip cc.2.1).reverse,
        StationName := some loc,
        StationLatitude := some lat,
        StationLongitude := some lng,
        StationAltitude := pyIntStr alt.dropLast }
    | _ => Except.error PyErr.valueError

/-- data.split(None, 3)[0:3:2] with two-target unpacking: the first and
third whitespace tokens, None (a ValueError) when fewer than three
exist. -/
def twoOfThreeWS (data : PyStr) : Option (PyStr × PyStr) :=
  let parts := pySplitWSMax 3 data
  match parts[0]?, parts[2]? with
  | some a, some b => some (a, b)
  | _, _ => none

/-- The date/time line handler: the piece after the first / is the
observation time (IndexError when there is no /). -/
def timeLine (r : WeatherReport) (data : PyStr) : Except PyErr WeatherReport :=
  match (pySplitOn '/' data)[1]? with
  | none => Except.error PyErr.indexError
  | some rtime => Except.ok { r with Time := some (pyStrip rtime) }

/-- The Temperature line handler: value format N F (M C). -/
def tempLine (r : WeatherReport) (data : PyStr) : Except PyErr WeatherReport :=
  match twoOfThreeWS data with
  | none => Except.error PyErr.valueError
  | some fc =>
    match pyFloatStr fc.1, pyFloatStr (fc.2.drop 1) with
    | some f, some c =>
      Except.ok { r with TemperatureFahrenheit := some f, TemperatureCelsius := some c }
    | _, _ => Except.error PyErr.valueError

/-- The Windchill line handler: like Temperature, into the memo slots. -/
def chillLine (r : WeatherReport) (data : PyStr) : Except PyErr WeatherReport :=
  match twoOfThreeWS data with
  | none => Except.error PyErr.valueError
  | some fc =>
    match pyFloatStr fc.1, pyFloatStr (fc.2.drop 1) with
    | some f, some c => Except.ok { r with w_chillf := some f, w_chill := some c }
    | _, _ => Except.error PyErr.valueError

/-- The Wind line handler: Calm, Variable and fixed-format sub-cases. -/
def windLine (r : WeatherReport) (data : PyStr) : Except PyErr WeatherReport :=
  if pyContains ("Calm".data) data then
    Except.ok { r with WindSpeedKnots := some 0, WindSpeedMilesPerHour := some 0,
                       WindDirection := none, WindCompass := none }
  else if pyContains ("Variable".data) data then
    match (pySplitChMax ' ' (some 3) data)[2]? with
    | none => Except.error PyErr.indexError
    | some speed =>
      match (pySplitChMax ' ' (some 5) data)[4]? with
      | none => Except.error PyErr.indexError
      | some k4 =>
        match pyIntStr (k4.drop 1) with
        | none => Except.error PyErr.valueError
        | some kn =>
          match pyIntStr speed with
          | none => Except.error PyErr.valueError
          | some mph =>
            Except.ok { r with WindSpeedKnots := some ((kn : ℚ)),
                               WindSpeedMilesPerHour := some ((mph : ℚ)),
                               WindDirection := none, WindCompass := none }
  else
    let fields := (pySplitChMax ' ' (some 9) data).take 9
    match fields[2]?, fields[3]?, fields[6]?, fields[8]? with
    | some comp, some deg, some speed, some f8 =>
      (match pyIntStr (deg.drop 1) with
       | none => Except.error PyErr.valueError
       | some d =>
         match pyIntStr (f8.drop 1), pyIntStr speed with
         | some kt, some mph =>
           Except.ok { r with WindDirection := some d,
                              WindCompass := some (pyStrip comp),
                              WindSpeedKnots := some ((kt : ℚ)),
                              WindSpeedMilesPerHour := some ((mph : ℚ)) }
         | _, _ => Except.error PyErr.valueError)
    | _, _, _, _ => Except.error PyErr.indexError

/-- The Visibility line handler: the loop body runs float() on the first
whitespace token and breaks on either outcome, so only the first token is
ever considered and a failed parse is swallowed. -/
def visLine (r : WeatherReport) (data : PyStr) : Except PyErr WeatherReport :=
  Except.ok
    (match pySplitWS data with
     | [] => r
     | tok :: _ =>
       match pyFloatStr tok with
       | some v => { r with VisibilityMiles := some v }
       | none => r)

/-- The Dew Point line handler: like Temperature. -/
def dewLine (r : WeatherReport) (data : PyStr) : Except PyErr WeatherReport :=
  match twoOfThreeWS data with
  | none => Except.error PyErr.valueError
  | some fc =>
    match pyFloatStr fc.1, pyFloatStr (fc.2.drop 1) with
    | some f, some c =>
      Except.ok { r with DewPointFahrenheit := some f, DewPointCelsius := some c }
    | _, _ => Except.error PyErr.valueError

/-- The Relative Humidity line handler: integer before the % sign. -/
def humidLine (r : WeatherReport) (data : PyStr) : Except PyErr WeatherReport :=
  match pyIntStr (match pyBreakAt '%' data with
                  | some p => p.1
                  | none => data) with
  | none => Except.error PyErr.valueError
  | some hv => Except.ok { r with Humidity := some hv }

/-- The Pressure (altimeter) line handler: first token inHg, second-last
token (first character stripped) hPa. -/
def pressLine (r : WeatherReport) (data : PyStr) : Except PyErr WeatherReport :=
  let press := pySplitWS data
  match press[0]? with
  | none => Except.error PyErr.indexError
  | some p0 =>
    match pyFloatStr p0 with
    | none => Except.error PyErr.valueError
    | some inhg =>
      if press.length < 2 then Except.error PyErr.indexError
      else
        match pyFloatStr ((press[press.length - 2]?.getD []).drop 1) with
        | none => Except.error PyErr.valueError
        | some hpa =>
          Except.ok { r with PressureInHg := some inhg, PressurehPa := some hpa }

/-- The cycle line handler: integer value, 0 when int() fails. -/
def cycleLine (r : WeatherReport) (data : PyStr) : Except PyErr WeatherReport :=
  match pyIntStr data with
  | none => Except.ok { r with Cycle := some 0 }
  | some n => Except.ok { r with Cycle := some n }

/-- One iteration of the line loop of _parse_report: split the line at
its first colon into header and value (header = value = line when there
is no colon), strip both, and dispatch on the header rules in source
order. -/
def processLine (r : WeatherReport) (line : PyStr) : Except PyErr WeatherReport :=
  let hd : PyStr × PyStr :=
    match pyBreakAt ':' line with
    | some p => p
    | none => (line, line)
  let header := pyStrip hd.1
  let data := pyStrip hd.2
  match r.StationID with
  | none => Except.error PyErr.typeError
  | some sid =>
    if (pyFind ('(' :: (sid ++ [')'])) header).isSome then
      stationLine r sid header data
    else if pyContains (" UTC".data) data && !(pyContains sid data) then
      timeLine r data
    else if header = ("Temperature".data) then tempLine r data
    else if header = ("Windchill".data) then chillLine r data
    else if header = ("Wind".data) then windLine r data
    else if header = ("Visibility".data) then visLine r data
    else if header = ("Dew Point".data) then dewLine r data
    else if header = ("Relative Humidity".data) then humidLine r data
    else if header = ("Pressure (altimeter)".data) then pressLine r data
    else if header = ("Weather".data) then Except.ok { r with Weather := some data }
    else if header = ("Sky conditions".data) then
      Except.ok { r with SkyConditions := some data }
    else if header = ("ob".data) then Except.ok { r with RawMetarCode := some (pyStrip data) }
    else if header = ("cycle".data) then cycleLine r data
    else Except.ok r

/-- The line loop of _parse_report: process lines in order, propagating
the first uncaught exception. -/
def foldLines : WeatherReport → List PyStr → Except PyErr WeatherReport
  | r, [] => Except.ok r
  | r, l :: ls =>
    match processLine r l with
    | Except.error e => Except.error e
    | Except.ok r2 => foldLines r2 ls

/-- The post-loop section of _parse_report: extract cloud and condition
information from the stored encoded code, fill Cloudtype once, store the
info tuples, fill Weather/Pixmap by Python `or` chains and set the parsed
flag. -/
def parsePostlude (r : WeatherReport) : WeatherReport :=
  let ci := extractCloudInformation r.RawMetarCode
  let r1 := if r.Cloudtype = none then { r with Cloudtype := ci.2.1 } else r
  let cpair : Option PyStr × Option PyStr :=
    match extractSkyConditions r1.RawMetarCode with
    | some p => (some p.1, some p.2)
    | none => (none, none)
  { r1 with
    Cloudinfo := some (ci.1, ci.2.2),
    Conditions := some cpair,
    Weather := pyOrS (pyOrS r1.Weather cpair.1) ci.1,
    Pixmap := pyOrS cpair.2 ci.2.2,
    parsed := true }

/-- WeatherReport._parse_report: EmptyReportException for a missing
report, GarbledReportException for a report that is not valid text,
otherwise the line loop followed by the postlude. -/
def parse_report (r : WeatherReport) : Except PyErr WeatherReport :=
  match r.FullReport with
  | none => Except.error PyErr.emptyReport
  | some RawText.garbled => Except.error PyErr.garbledReport
  | some (RawText.text s) =>
    match foldLines r (pySplitOn '\n' s) with
    | Except.error e => Except.error e
    | Except.ok r2 => Except.ok (parsePostlude r2)

/-- WeatherReport.ParseReport: parse only when the parsed flag is not yet
set. -/
def ParseReport (r : WeatherReport) : Except PyErr WeatherReport :=
  if r.parsed then Except.ok r else parse_report r

/-- PressuremmHg property: self.PressureInHg * 25.4000 with no absence
guard, so a None pressure raises TypeError. -/
def PressuremmHg (r : WeatherReport) : Except PyErr ℚ :=
  match r.PressureInHg with
  | none => Except.error PyErr.typeError
  | some v => Except.ok (v * 25.4000)

/-- WindSpeedMPS property: guarded, None when the mph speed is absent. -/
def WindSpeedMPS (r : WeatherReport) : Option ℚ :=
  r.WindSpeedMilesPerHour.map (fun v => v * 0.44704)

/-- VisibilityKilometers property: guarded, None when the miles
visibility is absent. -/
def VisibilityKilometers (r : WeatherReport) : Option ℚ :=
  r.VisibilityMiles.map (fun v => v * 1.609344)

/-- StationLatitudeFloat property. -/
def StationLatitudeFloat (r : WeatherReport) : Except PyErr (Option ℚ) :=
  parse_lat_long r.StationLatitude

/-- StationLongitudeFloat property. -/
def StationLongitudeFloat (r : WeatherReport) : Except PyErr (Option ℚ) :=
  parse_lat_long r.StationLongitude

/-- ISOTime property. -/
def ISOTime (r : WeatherReport) : Except PyErr (Option PyStr) :=
  metar_to_iso8601 r.Time

/-- The value returned by _calc_w_chill, with the float power operation
used for kph ** 0.16 passed in as fpow. -/
def calc_w_chill (fpow : ℚ → ℚ → ℚ) (r : WeatherReport) : Option ℚ :=
  let ws := WindSpeedMPS r
  let kph := (ws.getD 0) * 3.6
  match r.TemperatureCelsius, ws with
  | some c, some _ =>
    if c ≤ 10 ∧ 4.8 < kph then
      some (13.12 + 0.6215 * c - 11.37 * fpow kph 0.16 + 0.3965 * c * fpow kph 0.16)
    else some c
  | _, _ => r.TemperatureCelsius

/-- WindchillCelsius property: the memoized value when present, otherwise
the computed one. -/
def WindchillCelsius (fpow : ℚ → ℚ → ℚ) (r : WeatherReport) : Option ℚ :=
  match r.w_chill with
  | none => calc_w_chill fpow r
  | some v => some v

/-- s2 is s1 with the letter O standing in for some of the digit-zero
characters (positions match pairwise, each either equal or a 0/O pair). -/
def oForZero : PyStr → PyStr → Bool
  | [], [] => true
  | a :: s1, b :: s2 =>
    (decide (a = b) || (decide (a = '0') && decide (b = 'O'))) && oForZero s1 s2
  | _, _ => false

/-- The float value the decoder derives for a raw station-line coordinate
token: the O-to-0 correction applied by _parse_report before storing the
token, composed with _parse_lat_long (what StationLatitudeFloat returns
after such a decode). -/
def latLongDecodeFloat (s : PyStr) : Except PyErr (Option ℚ) :=
  parse_lat_long (some (pyReplace 'O' '0' s))

/-- Claim-side segmentation for the condition codec, following the spec's
description with the strip threshold amended: a leading sign is stripped
exactly when the code remaining after stripping would be at least 3
characters long; the qualifier length is 1 when the (possibly stripped)
code starts with a sign, 0 when it is under 4 characters, 2 otherwise;
the phenomenon code is the following slice. -/
def condSegmentSpec (wcond : PyStr) : PyStr × PyStr :=
  let w :=
    if (pyStartsWith (['+']) wcond || pyStartsWith (['-']) wcond) &&
        decide (3 ≤ (wcond.drop 1).length)
    then wcond.drop 1 else wcond
  let pphen : Nat :=
    if pyStartsWith (['+']) w || pyStartsWith (['-']) w then 1
    else if w.length < 4 then 0
    else 2
  (w.take pphen, (w.drop pphen).take 4)

/-- A fresh report object with a station id and no raw text. -/
def repEmptyReport : WeatherReport := mkWeatherReport (some ("XXXX".data)) none none

/-- A report object whose FullReport is not valid character data. -/
def repGarbled : WeatherReport :=
  mkWeatherReport (some ("XXXX".data)) none (some RawText.garbled)

/-- A report object whose parsed flag is already set. -/
def repParsed : WeatherReport := { repEmptyReport with parsed := true }

/-- A one-line report with no cycle line. -/
def repNoCycle : WeatherReport :=
  mkWeatherReport (some ("XXXX".data)) none (some (RawText.text ("Hello".data)))

/-- A one-line report whose cycle value fails integer parsing. -/
def repBadCycle : WeatherReport :=
  mkWeatherReport (some ("XXXX".data)) none (some (RawText.text ("cycle: abc".data)))

/-- A one-line report with a parseable visibility value. -/
def repVisTen : WeatherReport :=
  mkWeatherReport (some ("XXXX".data)) none (some (RawText.text ("Visibility: 10 SM".data)))

/-- A one-line report with an unparseable visibility value. -/
def repVisAbc : WeatherReport :=
  mkWeatherReport (some ("XXXX".data)) none (some (RawText.text ("Visibility: abc".data)))

/-- A one-line report with a station line whose latitude has an O typo. -/
def repStationO : WeatherReport :=
  mkWeatherReport (some ("XXXX".data)) none
    (some (RawText.text ("City, Country (XXXX) O1-14N 002-06E 5M".data)))

/-- The same station line with the digit 0 instead of the O typo. -/
def repStationZero : WeatherReport :=
  mkWeatherReport (some ("XXXX".data)) none
    (some (RawText.text ("City, Country (XXXX) 01-14N 002-06E 5M".data)))

/-- An observation with a malformed (non-empty) observation time. -/
def repBadTime : WeatherReport := { repEmptyReport with Time := some ("garbage".data) }

/-- An observation with temperature 5 C and wind speed 10 mph present. -/
def repChill : WeatherReport :=
  { repEmptyReport with TemperatureCelsius := some 5, WindSpeedMilesPerHour := some 10 }

/-- An observation with pressure 30 inHg present. -/
def repPressure : WeatherReport := { repEmptyReport with PressureInHg := some 30 }

/-- An observation with a well-formed observation time. -/
def repGoodTime : WeatherReport :=
  { repEmptyReport with Time := some ("2002.04.01 1020".data) }

/-! Helper lemmas about the string model. -/

theorem dropWhile_no (p : Char → Bool) (s : PyStr) (h : ∀ c ∈ s, p c = false) :
    s.dropWhile p = s := by
  cases s with
  | nil => rfl
  | cons c t => simp [List.dropWhile_cons, h c (by simp)]

theorem pyStrip_no (s : PyStr) (h : ∀ c ∈ s, pyIsSpace c = false) : pyStrip s = s := by
  unfold pyStrip
  rw [dropWhile_no pyIsSpace s h, dropWhile_no pyIsSpace s.reverse
    (fun c hc => h c (List.mem_reverse.mp hc)), List.reverse_reverse]

theorem map_id_of_fix (f : Char → Char) (l : PyStr) (h : ∀ x ∈ l, f x = x) :
    l.map f = l := by
  induction l with
  | nil => rfl
  | cons a t ih => simp [h a (by simp)]; exact ih (fun x hx => h x (by simp [hx]))

theorem isDigCh_not_space (c : Char) (h : isDigCh c = true) : pyIsSpace c = false := by
  simp only [isDigCh, Bool.and_eq_true, decide_eq_true_eq] at h
  simp only [pyIsSpace, Bool.or_eq_false_iff, decide_eq_false_iff_not, Bool.and_eq_false_iff]
  omega

theorem isDigCh_upper (c : Char) (h : isDigCh c = true) : pyToUpper c = c := by
  simp only [isDigCh, Bool.and_eq_true, decide_eq_true_eq] at h
  unfold pyToUpper
  rw [if_neg]
  simp only [Bool.and_eq_true, decide_eq_true_eq, not_and]
  omega

theorem isDigCh_ne (c x : Char) (h : isDigCh c = true) (hx : isDigCh x = false) : c ≠ x := by
  intro he
  rw [he, hx] at h
  cases h

theorem digits_not_mem (d : PyStr) (hd : d.all isDigCh = true) (c : Char)
    (hc : isDigCh c = false) : c ∉ d := by
  intro hm
  have := List.all_eq_true.mp hd c hm
  rw [hc] at this
  cases this

theorem pySplitOn_no (sep : Char) (l : PyStr) (h : sep ∉ l) : pySplitOn sep l = [l] := by
  induction l with
  | nil => rfl
  | cons c t ih =>
    have hc : ¬ c = sep := fun he => h (by simp [he])
    have ht := ih (fun hm => h (by simp [hm]))
    simp [pySplitOn, hc, ht]

theorem pySplitOn_app (sep : Char) (l r : PyStr) (h : sep ∉ l) :
    pySplitOn sep (l ++ sep :: r) = l :: pySplitOn sep r := by
  induction l with
  | nil => simp [pySplitOn]
  | cons c t ih =>
    have hc : ¬ c = sep := fun he => h (by simp [he])
    have ht := ih (fun hm => h (by simp [hm]))
    simp [pySplitOn, hc, ht]

theorem pyBreakAt_app (sep : Char) (l r : PyStr) (h : sep ∉ l) :
    pyBreakAt sep (l ++ sep :: r) = some (l, r) := by
  induction l with
  | nil => simp [pyBreakAt]
  | cons c t ih =>
    have hc : ¬ c = sep := fun he => h (by simp [he])
    have ht := ih (fun hm => h (by simp [hm]))
    simp [pyBreakAt, hc, ht]

theorem pyFind_paren_none (t hay : PyStr) (h : '(' ∉ hay) :
    pyFind ('(' :: t) hay = none := by
  induction hay with
  | nil => simp [pyFind]
  | cons c rest ih =>
    have hc : ¬ c = '(' := fun he => h (by simp [he])
    have hs : pyStartsWith ('(' :: t) (c :: rest) = false := by
      simp only [pyStartsWith, List.length_cons, List.take_succ_cons, decide_eq_false_iff_not]
      intro he
      exact hc (List.cons.inj he).1
    simp [pyFind, hs, ih (fun hm => h (by simp [hm]))]

theorem allDigits_parts (d : PyStr) (h : allDigits d = true) :
    d ≠ [] ∧ ∀ c ∈ d, isDigCh c = true := by
  simp only [allDigits, Bool.and_eq_true, Bool.not_eq_true'] at h
  obtain ⟨h1, h2⟩ := h
  exact ⟨List.isEmpty_eq_false.mp h1, fun c hc => List.all_eq_true.mp h2 c hc⟩

theorem pyFloatStr_digits (d : PyStr) (hd : allDigits d = true) :
    pyFloatStr d = some ((digitsToNat d : ℚ)) := by
  obtain ⟨hne, hall⟩ := allDigits_parts d hd
  have hstrip : pyStrip d = d :=
    pyStrip_no d (fun c hc => isDigCh_not_space c (hall c hc))
  obtain ⟨c, t, rfl⟩ : ∃ c t, d = c :: t := by
    cases d with
    | nil => exact absurd rfl hne
    | cons c t => exact ⟨c, t, rfl⟩
  have hc := hall c (by simp)
  unfold pyFloatStr
  rw [hstrip]
  rw [if_neg (by
    simp only [List.take_succ_cons, List.take_zero, List.cons.injEq, and_true]
    exact isDigCh_ne c '-' hc (by decide)), if_neg (by
    simp only [List.take_succ_cons, List.take_zero, List.cons.injEq, and_true]
    exact isDigCh_ne c '+' hc (by decide))]
  unfold pyFloatFrac
  rw [pySplitOn_no '.' (c :: t) (digits_not_mem (c :: t) (by
    simp only [List.all_eq_true]; exact hall) '.' (by decide))]
  simp [hd]

theorem pySplitWSAux_chunk (t rest acc : PyStr) (h : ∀ c ∈ t, pyIsSpace c = false) :
    pySplitWSAux (t ++ rest) acc = pySplitWSAux rest (t.reverse ++ acc) := by
  induction t generalizing acc with
  | nil => simp
  | cons c u ih =>
    have hc := h c (by simp)
    have step : pySplitWSAux (c :: (u ++ rest)) acc = pySplitWSAux (u ++ rest) (c :: acc) := by
      simp [pySplitWSAux, hc]
    rw [List.cons_append, step, ih (c :: acc) (fun x hx => h x (by simp [hx]))]
    simp

theorem pySplitWSAux_stop (acc : PyStr) (hne : acc ≠ []) :
    pySplitWSAux [] acc = [acc.reverse] := by
  simp [pySplitWSAux, hne]

theorem pySplitWSAux_space (c : Char) (rest acc : PyStr) (hc : pyIsSpace c = true)
    (hne : acc ≠ []) :
    pySplitWSAux (c :: rest) acc = acc.reverse :: pySplitWSAux rest [] := by
  simp [pySplitWSAux, hc, hne]

theorem pySplitWS_pair (a b : PyStr)
    (ha : ∀ c ∈ a, pyIsSpace c = false) (hb : ∀ c ∈ b, pyIsSpace c = false)
    (na : a ≠ []) (nb : b ≠ []) :
    pySplitWS (a ++ ' ' :: b) = [a, b] := by
  unfold pySplitWS
  rw [pySplitWSAux_chunk a (' ' :: b) [] ha, List.append_nil,
    pySplitWSAux_space ' ' b a.reverse (by decide) (by simpa using na)]
  have hb2 : pySplitWSAux (b ++ []) [] = pySplitWSAux [] b.reverse := by
    rw [pySplitWSAux_chunk b [] [] hb, List.append_nil]
  rw [List.append_nil] at hb2
  rw [hb2, pySplitWSAux_stop b.reverse (by simpa using nb)]
  simp

theorem oForZero_replace (s1 s2 : PyStr) (h : oForZero s1 s2 = true) :
    pyReplace 'O' '0' s1 = pyReplace 'O' '0' s2 := by
  induction s1 generalizing s2 with
  | nil =>
    cases s2 with
    | nil => rfl
    | cons b u => simp [oForZero] at h
  | cons a t ih =>
    cases s2 with
    | nil => simp [oForZero] at h
    | cons b u =>
      simp only [oForZero, Bool.and_eq_true, Bool.or_eq_true, decide_eq_true_eq] at h
      obtain ⟨hab, htu⟩ := h
      have hr := ih u (by exact htu)
      simp only [pyReplace, List.map_cons] at hr ⊢
      rw [hr]
      rcases hab with he | ⟨h0, hO⟩
      · rw [he]
      · subst h0; subst hO; simp

/-- C1: For every decode attempt on a WeatherReport, an absent raw report
text makes the parse step fail with the EmptyReport error and raw text
that cannot be interpreted as valid character data makes it fail with the
GarbledReport error; in either failure case the decode aborts with a
report-level error instead of returning a populated observation. -/
theorem C1_report_level_errors (r : WeatherReport) :
    (r.FullReport = none → parse_report r = Except.error PyErr.emptyReport) ∧
    (r.FullReport = some RawText.garbled →
      parse_report r = Except.error PyErr.garbledReport) := by
  constructor <;> intro h <;> simp [parse_report, h]

/-- Witness for C1 at concrete observations: one with no raw text and one
whose raw text is not valid character data. -/
theorem C1_report_level_errors_witness :
    parse_report repEmptyReport = Except.error PyErr.emptyReport ∧
    parse_report repGarbled = Except.error PyErr.garbledReport :=
  ⟨(C1_report_level_errors repEmptyReport).1 rfl,
   (C1_report_level_errors repGarbled).2 rfl⟩

/-- C2: The parse step is idempotent: on an observation whose parsed flag
is set, ParseReport is a no-op — the observation is returned unchanged
(every field keeps its value) and no error is raised. -/
theorem C2_parse_idempotent (r : WeatherReport) (h : r.parsed = true) :
    ParseReport r = Except.ok r := by
  simp [ParseReport, h]

/-- Witness for C2 at a concrete already-parsed observation. -/
theorem C2_parse_idempotent_witness :
    repParsed.parsed = true ∧ ParseReport repParsed = Except.ok repParsed :=
  ⟨rfl, C2_parse_idempotent repParsed rfl⟩

/-- C10: Unlike the guarded unit conversions WindSpeedMPS and
VisibilityKilometers, which return None when their source field is
absent, PressuremmHg has no absence guard: with PressureInHg absent it
raises a TypeError, and with PressureInHg present it returns exactly
PressureInHg * 25.4. -/
theorem C10_pressure_mmhg (r : WeatherReport) :
    (r.PressureInHg = none → PressuremmHg r = Except.error PyErr.typeError) ∧
    (∀ v : ℚ, r.PressureInHg = some v → PressuremmHg r = Except.ok (v * 25.4000)) ∧
    (r.WindSpeedMilesPerHour = none → WindSpeedMPS r = none) ∧
    (r.VisibilityMiles = none → VisibilityKilometers r = none) :=
  ⟨fun h => by simp [PressuremmHg, h],
   fun v h => by simp [PressuremmHg, h],
   fun h => by simp [WindSpeedMPS, h],
   fun h => by simp [VisibilityKilometers, h]⟩

/-- Witness for C10 at concrete observations with the pressure absent and
present. -/
theorem C10_pressure_mmhg_witness :
    PressuremmHg repEmptyReport = Except.error PyErr.typeError ∧
    PressuremmHg repPressure = Except.ok ((30 : ℚ) * 25.4000) ∧
    WindSpeedMPS repEmptyReport = none ∧
    VisibilityKilometers repEmptyReport = none :=
  ⟨(C10_pressure_mmhg repEmptyReport).1 rfl,
   (C10_pressure_mmhg repPressure).2.1 30 rfl,
   (C10_pressure_mmhg repEmptyReport).2.2.1 rfl,
   (C10_pressure_mmhg repEmptyReport).2.2.2 rfl⟩

/-- Counterexample for C8: the matching condition group -+FC is 4
characters long, so the code remaining after stripping the leading sign
would only be 3 characters, yet the code does strip it — the segmentation
is (+, FC) and not the (-, +FC) the claim predicts. -/
theorem C8_counterexample :
    condMatch ("-+FC".data) = true ∧
    condSegment ("-+FC".data) = (("+".data), ("FC".data)) ∧
    condSegment ("-+FC".data) ≠ (("-".data), ("+FC".data)) :=
  ⟨by decide, by decide, by decide⟩

/-- C8 (amended): for every matching condition group, a leading sign is
stripped exactly when the code remaining after stripping would be at
least 3 characters long; the qualifier length is then 1 if the (possibly
stripped) code starts with a sign, 0 if the code is under 4 characters
and 2 otherwise, and the phenomenon code is the slice after the
qualifier. -/
theorem C8_segmentation (w : PyStr) (_h : condMatch w = true) :
    condSegment w = condSegmentSpec w := by
  unfold condSegment condSegmentSpec
  have hcond :
      (decide (3 < w.length) && (pyStartsWith (['+']) w || pyStartsWith (['-']) w)) =
      ((pyStartsWith (['+']) w || pyStartsWith (['-']) w) &&
        decide (3 ≤ (w.drop 1).length)) := by
    rw [Bool.and_comm]
    have : decide (3 < w.length) = decide (3 ≤ (w.drop 1).length) := by
      simp only [List.length_drop]
      exact decide_eq_decide.mpr (by omega)
    rw [this]
  rw [hcond]

/-- Witness for C8 at the matching group -SHRA. -/
theorem C8_segmentation_witness :
    condMatch ("-SHRA".data) = true ∧
    condSegment ("-SHRA".data) = condSegmentSpec ("-SHRA".data) :=
  ⟨by decide, C8_segmentation ("-SHRA".data) (by decide)⟩

/-- C6: for every observation with temperature T and wind speed both
present, the computed Celsius wind chill equals
13.12 + 0.6215·T − 11.37·V^0.16 + 0.3965·T·V^0.16 (V the wind speed in
km/h, the power operation passed as fpow) when T ≤ 10 and V exceeds
4.8 km/h, and equals the raw temperature otherwise; the WindchillCelsius
accessor returns this computation when no memoized value is present. -/
theorem C6_windchill (fpow : ℚ → ℚ → ℚ) (r : WeatherReport) (t v : ℚ)
    (ht : r.TemperatureCelsius = some t)
    (hv : r.WindSpeedMilesPerHour = some v) :
    calc_w_chill fpow r =
      some (if t ≤ 10 ∧ 4.8 < v * 0.44704 * 3.6
        then 13.12 + 0.6215 * t - 11.37 * fpow (v * 0.44704 * 3.6) 0.16
             + 0.3965 * t * fpow (v * 0.44704 * 3.6) 0.16
        else t) ∧
    (r.w_chill = none → WindchillCelsius fpow r = calc_w_chill fpow r) := by
  constructor
  · simp only [calc_w_chill, WindSpeedMPS, ht, hv, Option.map_some', Option.getD_some]
    split
    · rfl
    · rfl
  · intro h
    simp [WindchillCelsius, h]

/-- Witness for C6 at T = 5 °C, wind 10 mph (16.09344 km/h) and a
concrete power function. -/
theorem C6_windchill_witness :
    calc_w_chill (fun _ _ => 2) repChill =
      some ((13.12 + 0.6215 * 5 - 11.37 * 2 + 0.3965 * 5 * 2 : ℚ)) := by
  have h := (C6_windchill (fun _ _ => 2) repChill 5 10 rfl rfl).1
  rw [h, if_pos (by norm_num)]

theorem not_mem_digits (d : PyStr) (hdall : ∀ c ∈ d, isDigCh c = true) (x : Char)
    (hx : isDigCh x = false) : x ∉ d :=
  fun hm => by
    have h := hdall x hm
    rw [hx] at h
    cases h

theorem forall_mem_dc {P : Char → Prop} (d : PyStr) (c : Char)
    (hd : ∀ x ∈ d, P x) (hc : P c) :
    ∀ x ∈ d ++ [c], P x := by
  intro x hx
  rcases List.mem_append.mp hx with h | h
  · exact hd x h
  · rw [List.mem_singleton.mp h]; exact hc

theorem forall_mem_dm {P : Char → Prop} (d m : PyStr) (c : Char)
    (hd : ∀ x ∈ d, P x) (hm : ∀ x ∈ m, P x) (hdash : P '-') (hc : P c) :
    ∀ x ∈ d ++ '-' :: (m ++ [c]), P x := by
  intro x hx
  rcases List.mem_append.mp hx with h | h
  · exact hd x h
  · rcases List.mem_cons.mp h with h2 | h2
    · rw [h2]; exact hdash
    · exact forall_mem_dc m c hm hc x h2

theorem forall_mem_dms {P : Char → Prop} (d m s : PyStr) (c : Char)
    (hd : ∀ x ∈ d, P x) (hm : ∀ x ∈ m, P x) (hs : ∀ x ∈ s, P x)
    (hdash : P '-') (hc : P c) :
    ∀ x ∈ d ++ '-' :: (m ++ '-' :: (s ++ [c])), P x := by
  intro x hx
  rcases List.mem_append.mp hx with h | h
  · exact hd x h
  · rcases List.mem_cons.mp h with h2 | h2
    · rw [h2]; exact hdash
    · exact forall_mem_dm m s c hm hs hdash hc x h2

theorem not_mem_dc (d : PyStr) (c x : Char)
    (hd : x ∉ d) (hc : ¬ x = c) : x ∉ d ++ [c] := by
  intro hx
  rcases List.mem_append.mp hx with h | h
  · exact hd h
  · exact hc (List.mem_singleton.mp h)

theorem parse_lat_long_dm (d m : PyStr) (c : Char)
    (hd : allDigits d = true) (hm : allDigits m = true)
    (hc : c = 'N' ∨ c = 'S' ∨ c = 'E' ∨ c = 'W') :
    parse_lat_long (some (d ++ '-' :: (m ++ [c]))) =
      Except.ok (some (if c = 'W' ∨ c = 'S'
        then -((digitsToNat d : ℚ) + (digitsToNat m : ℚ) / 60)
        else (digitsToNat d : ℚ) + (digitsToNat m : ℚ) / 60)) := by
  obtain ⟨hdne, hdall⟩ := allDigits_parts d hd
  obtain ⟨hmne, hmall⟩ := allDigits_parts m hm
  have hcup : pyToUpper c = c := by rcases hc with h|h|h|h <;> subst h <;> decide
  have hcsp : pyIsSpace c = false := by rcases hc with h|h|h|h <;> subst h <;> decide
  have hcdash : ¬ c = '-' := by rcases hc with h|h|h|h <;> subst h <;> decide
  have hmapup : (d ++ '-' :: (m ++ [c])).map pyToUpper = d ++ '-' :: (m ++ [c]) :=
    map_id_of_fix _ _ (forall_mem_dm d m c
      (fun x hx => isDigCh_upper x (hdall x hx))
      (fun x hx => isDigCh_upper x (hmall x hx)) (by decide) hcup)
  have hstrip : pyStrip (d ++ '-' :: (m ++ [c])) = d ++ '-' :: (m ++ [c]) :=
    pyStrip_no _ (forall_mem_dm d m c
      (fun x hx => isDigCh_not_space x (hdall x hx))
      (fun x hx => isDigCh_not_space x (hmall x hx)) (by decide) hcsp)
  have hlle : (d ++ '-' :: (m ++ [c])).isEmpty = false := by simp
  have e1 : pySplitOn '-' (d ++ '-' :: (m ++ [c])) = [d, m ++ [c]] := by
    rw [pySplitOn_app '-' d (m ++ [c]) (not_mem_digits d hdall '-' (by decide)),
      pySplitOn_no '-' (m ++ [c])
        (not_mem_dc m c '-' (not_mem_digits m hmall '-' (by decide))
          (fun he => hcdash he.symm))]
  have e2 : ([d, m ++ [c]] : List PyStr).getLast? = some (m ++ [c]) := by
    rw [show ([d, m ++ [c]] : List PyStr) = [d] ++ [m ++ [c]] from rfl, List.getLast?_concat]
  have e3 : (m ++ [c]).getLast? = some c := List.getLast?_concat m
  have e4 : ([d, m ++ [c]] : List PyStr).dropLast = [d] := by
    rw [show ([d, m ++ [c]] : List PyStr) = [d] ++ [m ++ [c]] from rfl, List.dropLast_concat]
  have e5 : (m ++ [c]).dropLast = m := List.dropLast_concat
  simp only [parse_lat_long, hlle, Bool.false_eq_true, if_false, hmapup, hstrip, e1, e2, e3,
    e4, e5, List.singleton_append, List.head?_cons, List.length_cons, List.length_singleton,
    pyFloatStr_digits d hd, pyFloatStr_digits m hm, List.getElem?_cons_succ,
    List.getElem?_cons_zero, Option.getD_some]
  norm_num [Except.map]

theorem parse_lat_long_d (d : PyStr) (c : Char)
    (hd : allDigits d = true)
    (hc : c = 'N' ∨ c = 'S' ∨ c = 'E' ∨ c = 'W') :
    parse_lat_long (some (d ++ [c])) =
      Except.ok (some (if c = 'W' ∨ c = 'S'
        then -((digitsToNat d : ℚ)) else (digitsToNat d : ℚ))) := by
  obtain ⟨hdne, hdall⟩ := allDigits_parts d hd
  have hcup : pyToUpper c = c := by rcases hc with h|h|h|h <;> subst h <;> decide
  have hcsp : pyIsSpace c = false := by rcases hc with h|h|h|h <;> subst h <;> decide
  have hcdash : ¬ c = '-' := by rcases hc with h|h|h|h <;> subst h <;> decide
  have hmapup : (d ++ [c]).map pyToUpper = d ++ [c] :=
    map_id_of_fix _ _ (forall_mem_dc d c
      (fun x hx => isDigCh_upper x (hdall x hx)) hcup)
  have hstrip : pyStrip (d ++ [c]) = d ++ [c] :=
    pyStrip_no _ (forall_mem_dc d c
      (fun x hx => isDigCh_not_space x (hdall x hx)) hcsp)
  have hlle : (d ++ [c]).isEmpty = false := by simp
  have e1 : pySplitOn '-' (d ++ [c]) = [d ++ [c]] :=
    pySplitOn_no '-' (d ++ [c])
      (not_mem_dc d c '-' (not_mem_digits d hdall '-' (by decide))
        (fun he => hcdash he.symm))
  have e2 : ([d ++ [c]] : List PyStr).getLast? = some (d ++ [c]) := by
    rw [show ([d ++ [c]] : List PyStr) = [] ++ [d ++ [c]] from rfl, List.getLast?_concat]
  have e3 : (d ++ [c]).getLast? = some c := List.getLast?_concat d
  have e4 : ([d ++ [c]] : List PyStr).dropLast = [] := by
    rw [show ([d ++ [c]] : List PyStr) = [] ++ [d ++ [c]] from rfl, List.dropLast_concat]
  have e5 : (d ++ [c]).dropLast = d := List.dropLast_concat
  simp only [parse_lat_long, hlle, Bool.false_eq_true, if_false, hmapup, hstrip, e1, e2, e3,
    e4, e5, List.nil_append, List.head?_cons, List.length_singleton,
    pyFloatStr_digits d hd]
  norm_num [Except.map]

theorem parse_lat_long_dms (d m s : PyStr) (c : Char)
    (hd : allDigits d = true) (hm : allDigits m = true) (hs : allDigits s = true)
    (hc : c = 'N' ∨ c = 'S' ∨ c = 'E' ∨ c = 'W') :
    parse_lat_long (some (d ++ '-' :: (m ++ '-' :: (s ++ [c])))) =
      Except.ok (some (if c = 'W' ∨ c = 'S'
        then -((digitsToNat d : ℚ) + (digitsToNat m : ℚ) / 60 + (digitsToNat s : ℚ) / 3600)
        else (digitsToNat d : ℚ) + (digitsToNat m : ℚ) / 60 + (digitsToNat s : ℚ) / 3600)) := by
  obtain ⟨hdne, hdall⟩ := allDigits_parts d hd
  obtain ⟨hmne, hmall⟩ := allDigits_parts m hm
  obtain ⟨hsne, hsall⟩ := allDigits_parts s hs
  have hcup : pyToUpper c = c := by rcases hc with h|h|h|h <;> subst h <;> decide
  have hcsp : pyIsSpace c = false := by rcases hc with h|h|h|h <;> subst h <;> decide
  have hcdash : ¬ c = '-' := by rcases hc with h|h|h|h <;> subst h <;> decide
  have hmapup : (d ++ '-' :: (m ++ '-' :: (s ++ [c]))).map pyToUpper =
      d ++ '-' :: (m ++ '-' :: (s ++ [c])) :=
    map_id_of_fix _ _ (forall_mem_dms d m s c
      (fun x hx => isDigCh_upper x (hdall x hx))
      (fun x hx => isDigCh_upper x (hmall x hx))
      (fun x hx => isDigCh_upper x (hsall x hx)) (by decide) hcup)
  have hstrip : pyStrip (d ++ '-' :: (m ++ '-' :: (s ++ [c]))) =
      d ++ '-' :: (m ++ '-' :: (s ++ [c])) :=
    pyStrip_no _ (forall_mem_dms d m s c
      (fun x hx => isDigCh_not_space x (hdall x hx))
      (fun x hx => isDigCh_not_space x (hmall x hx))
      (fun x hx => isDigCh_not_space x (hsall x hx)) (by decide) hcsp)
  have hlle : (d ++ '-' :: (m ++ '-' :: (s ++ [c]))).isEmpty = false := by simp
  have e1 : pySplitOn '-' (d ++ '-' :: (m ++ '-' :: (s ++ [c]))) = [d, m, s ++ [c]] := by
    rw [pySplitOn_app '-' d (m ++ '-' :: (s ++ [c]))
        (not_mem_digits d hdall '-' (by decide)),
      pySplitOn_app '-' m (s ++ [c]) (not_mem_digits m hmall '-' (by decide)),
      pySplitOn_no '-' (s ++ [c])
        (not_mem_dc s c '-' (not_mem_digits s hsall '-' (by decide))
          (fun he => hcdash he.symm))]
  have e2 : ([d, m, s ++ [c]] : List PyStr).getLast? = some (s ++ [c]) := by
    rw [show ([d, m, s ++ [c]] : List PyStr) = [d, m] ++ [s ++ [c]] from rfl,
      List.getLast?_concat]
  have e3 : (s ++ [c]).getLast? = some c := List.getLast?_concat s
  have e4 : ([d, m, s ++ [c]] : List PyStr).dropLast = [d, m] := by
    rw [show ([d, m, s ++ [c]] : List PyStr) = [d, m] ++ [s ++ [c]] from rfl,
      List.dropLast_concat]
  have e5 : (s ++ [c]).dropLast = s := List.dropLast_concat
  have e6 : ([d, m] : List PyStr) ++ [s] = [d, m, s] := rfl
  simp only [parse_lat_long, hlle, Bool.false_eq_true, if_false, hmapup, hstrip, e1, e2, e3,
    e4, e5, e6, List.head?_cons, List.length_cons, List.length_singleton,
    pyFloatStr_digits d hd, pyFloatStr_digits m hm, pyFloatStr_digits s hs,
    List.getElem?_cons_succ, List.getElem?_cons_zero, Option.getD_some]
  norm_num [Except.map]

/-- C3: for every non-empty DMS-direction string DD[-MM[-SS]]C built from
numeric segments and a compass character, the coordinate parser returns
degrees + minutes/60 + seconds/3600, negated exactly when C is W or S;
for an absent or empty input it returns absent. -/
theorem C3_coordinate_dms (d m s : PyStr) (c : Char)
    (hd : allDigits d = true) (hm : allDigits m = true) (hs : allDigits s = true)
    (hc : c = 'N' ∨ c = 'S' ∨ c = 'E' ∨ c = 'W') :
    parse_lat_long none = Except.ok none ∧
    parse_lat_long (some []) = Except.ok none ∧
    parse_lat_long (some (d ++ [c])) =
      Except.ok (some (if c = 'W' ∨ c = 'S'
        then -((digitsToNat d : ℚ)) else (digitsToNat d : ℚ))) ∧
    parse_lat_long (some (d ++ '-' :: (m ++ [c]))) =
      Except.ok (some (if c = 'W' ∨ c = 'S'
        then -((digitsToNat d : ℚ) + (digitsToNat m : ℚ) / 60)
        else (digitsToNat d : ℚ) + (digitsToNat m : ℚ) / 60)) ∧
    parse_lat_long (some (d ++ '-' :: (m ++ '-' :: (s ++ [c])))) =
      Except.ok (some (if c = 'W' ∨ c = 'S'
        then -((digitsToNat d : ℚ) + (digitsToNat m : ℚ) / 60 + (digitsToNat s : ℚ) / 3600)
        else (digitsToNat d : ℚ) + (digitsToNat m : ℚ) / 60 + (digitsToNat s : ℚ) / 3600)) :=
  ⟨rfl, rfl, parse_lat_long_d d c hd hc, parse_lat_long_dm d m c hd hm hc,
   parse_lat_long_dms d m s c hd hm hs hc⟩

/-- Witness for C3 at the concrete coordinate string 51-14-30W. -/
theorem C3_coordinate_dms_witness :
    parse_lat_long (some ("51-14-30W".data)) =
      Except.ok (some (-((digitsToNat ("51".data) : ℚ) +
        (digitsToNat ("14".data) : ℚ) / 60 + (digitsToNat ("30".data) : ℚ) / 3600))) := by
  have h := (C3_coordinate_dms ("51".data) ("14".data) ("30".data) 'W'
    (by decide) (by decide) (by decide) (Or.inr (Or.inr (Or.inr rfl)))).2.2.2.2
  have he : ("51-14-30W".data) =
      ("51".data) ++ '-' :: (("14".data) ++ '-' :: (("30".data) ++ ['W'])) := by decide
  rw [he, h, if_pos (Or.inl rfl)]

/-- C4: the decoder treats the letter O standing in for the digit 0 in a
DMS coordinate string as a digit zero: the O-to-0 correction applied
before storing the token makes any O-for-0 variant of a coordinate string
decode to the same float; in particular O1-14N decodes identically to
01-14N, both in isolation and through a full station-line decode. -/
theorem C4_o_for_zero (s1 s2 : PyStr) (h : oForZero s1 s2 = true) :
    latLongDecodeFloat s2 = latLongDecodeFloat s1 ∧
    latLongDecodeFloat ("O1-14N".data) = latLongDecodeFloat ("01-14N".data) ∧
    latLongDecodeFloat ("01-14N".data) =
      Except.ok (some ((digitsToNat ("01".data) : ℚ) + (digitsToNat ("14".data) : ℚ) / 60)) ∧
    (parse_report repStationO).map WeatherReport.StationLatitude =
      Except.ok (some ("01-14N".data)) ∧
    (parse_report repStationZero).map WeatherReport.StationLatitude =
      Except.ok (some ("01-14N".data)) := by
  refine ⟨?_, ?_, ?_, ?_, ?_⟩
  · unfold latLongDecodeFloat
    rw [oForZero_replace s1 s2 h]
  · rfl
  · unfold latLongDecodeFloat
    have he : pyReplace 'O' '0' ("01-14N".data) =
        ("01".data) ++ '-' :: (("14".data) ++ ['N']) := by decide
    rw [he, parse_lat_long_dm ("01".data) ("14".data) 'N' (by decide) (by decide)
      (Or.inl rfl), if_neg (by decide)]
  · decide
  · decide

/-- Witness for C4 at the O-typo pair (01-14N, O1-14N). -/
theorem C4_o_for_zero_witness :
    oForZero ("01-14N".data) ("O1-14N".data) = true ∧
    latLongDecodeFloat ("O1-14N".data) = latLongDecodeFloat ("01-14N".data) :=
  ⟨by decide, (C4_o_for_zero ("01-14N".data) ("O1-14N".data) (by decide)).1⟩

/-- Counterexample for C9: "garbage" is a non-empty malformed observation
time; the ISO timestamp accessor raises a ValueError on it (the two-token
unpacking fails) instead of returning absent as the claim states. -/
theorem C9_counterexample :
    repBadTime.Time = some ("garbage".data) ∧
    ISOTime repBadTime = Except.error PyErr.valueError ∧
    ISOTime repBadTime ≠ Except.ok none :=
  ⟨rfl, by decide, by decide⟩

/-- C9 (amended): the ISO timestamp accessor reformats a well-formed
YYYY.MM.DD HHMM observation time into YYYY-MM-DD HH:MM:00Z and returns
absent when the source time is absent; a malformed non-empty time
raises a ValueError rather than returning absent. -/
theorem C9_isotime (r rt : WeatherReport) (y mo d hr : PyStr)
    (hy : allDigits y = true) (hmo : allDigits mo = true) (hd : allDigits d = true)
    (hhr : allDigits hr = true) (_hlen : hr.length = 4)
    (hnone : r.Time = none)
    (ht : rt.Time = some ((y ++ '.' :: (mo ++ '.' :: d)) ++ ' ' :: hr)) :
    ISOTime r = Except.ok none ∧
    ISOTime rt = Except.ok (some (y ++ '-' :: (mo ++ '-' :: (d ++ ' ' ::
      (hr.take 2 ++ ':' :: ((hr.drop 2).take 2 ++ (":00Z".data))))))) ∧
    ISOTime repBadTime = Except.error PyErr.valueError := by
  obtain ⟨hyne, hyall⟩ := allDigits_parts y hy
  obtain ⟨hmone, hmoall⟩ := allDigits_parts mo hmo
  obtain ⟨hdne, hdall⟩ := allDigits_parts d hd
  obtain ⟨hhrne, hhrall⟩ := allDigits_parts hr hhr
  have hdatesp : ∀ x ∈ y ++ '.' :: (mo ++ '.' :: d), pyIsSpace x = false := by
    intro x hx
    rcases List.mem_append.mp hx with h | h
    · exact isDigCh_not_space x (hyall x h)
    · rcases List.mem_cons.mp h with h2 | h2
      · subst h2; decide
      · rcases List.mem_append.mp h2 with h3 | h3
        · exact isDigCh_not_space x (hmoall x h3)
        · rcases List.mem_cons.mp h3 with h4 | h4
          · subst h4; decide
          · exact isDigCh_not_space x (hdall x h4)
  have hsplit : pySplitWS ((y ++ '.' :: (mo ++ '.' :: d)) ++ ' ' :: hr) =
      [y ++ '.' :: (mo ++ '.' :: d), hr] :=
    pySplitWS_pair _ _ hdatesp (fun x hx => isDigCh_not_space x (hhrall x hx))
      (by simp) hhrne
  have hdot : pySplitOn '.' (y ++ '.' :: (mo ++ '.' :: d)) = [y, mo, d] := by
    rw [pySplitOn_app '.' y _ (not_mem_digits y hyall '.' (by decide)),
      pySplitOn_app '.' mo _ (not_mem_digits mo hmoall '.' (by decide)),
      pySplitOn_no '.' d (not_mem_digits d hdall '.' (by decide))]
  have hne : ((y ++ '.' :: (mo ++ '.' :: d)) ++ ' ' :: hr).isEmpty = false := by simp
  refine ⟨?_, ?_, by decide⟩
  · simp [ISOTime, metar_to_iso8601, hnone]
  · simp only [ISOTime, ht, metar_to_iso8601, hne, Bool.false_eq_true, if_false,
      hsplit, hdot]
    simp [List.append_assoc]

/-- Witness for C9 at a concrete absent time and the concrete well-formed
time 2002.04.01 1020. -/
theorem C9_isotime_witness :
    ISOTime repEmptyReport = Except.ok none ∧
    ISOTime repGoodTime = Except.ok (some ("2002-04-01 10:20:00Z".data)) := by
  have h := C9_isotime repEmptyReport repGoodTime ("2002".data) ("04".data) ("01".data)
    ("1020".data) (by decide) (by decide) (by decide) (by decide) (by decide) rfl (by decide)
  exact ⟨h.1, h.2.1.trans (by decide)⟩

/-- C5: for every Visibility line, only the first whitespace token of the
value is considered: if it parses as a float, VisibilityMiles is set to
it; if it fails to parse, no further tokens are scanned, no exception is
raised and VisibilityMiles is left unchanged (absent on a fresh decode);
concretely, "Visibility: 10 SM" decodes to 10.0 and "Visibility: abc"
leaves the visibility absent. -/
theorem C5_visibility (r : WeatherReport) (sid data : PyStr)
    (hsid : r.StationID = some sid)
    (hutc : pyContains (" UTC".data) (pyStrip data) = false) :
    processLine r (("Visibility:".data) ++ data) =
      Except.ok
        (match (pySplitWS (pyStrip data)).head? with
         | some tok =>
           (match pyFloatStr tok with
            | some v => { r with VisibilityMiles := some v }
            | none => r)
         | none => r) ∧
    (parse_report repVisTen).map WeatherReport.VisibilityMiles = Except.ok (some 10) ∧
    (parse_report repVisAbc).map WeatherReport.VisibilityMiles = Except.ok none := by
  refine ⟨?_, by decide, by decide⟩
  have hline : ("Visibility:".data) ++ data = ("Visibility".data) ++ ':' :: data := by
    rw [show ("Visibility:".data) = ("Visibility".data) ++ [':'] from by decide]
    simp
  rw [hline]
  have hstripv : pyStrip ("Visibility".data) = ("Visibility".data) := by decide
  have hfind : pyFind ('(' :: (sid ++ [')'])) ("Visibility".data) = none :=
    pyFind_paren_none _ _ (by decide)
  simp only [processLine, pyBreakAt_app ':' ("Visibility".data) data (by decide), hsid,
    hstripv, hfind, Option.isSome_none, Bool.false_eq_true, if_false,
    hutc, Bool.false_and,
    (by decide : ¬ ("Visibility".data) = ("Temperature".data)),
    (by decide : ¬ ("Visibility".data) = ("Windchill".data)),
    (by decide : ¬ ("Visibility".data) = ("Wind".data)),
    ite_false, ite_true, if_true, eq_self_iff_true]
  unfold visLine
  cases hs : pySplitWS (pyStrip data) with
  | nil => simp [hsid]
  | cons t ts => simp [hsid]

/-- Witness for C5 at the concrete value "10 SM". -/
theorem C5_visibility_witness :
    processLine repEmptyReport (("Visibility:".data) ++ (" 10 SM".data)) =
      Except.ok
        (match (pySplitWS (pyStrip (" 10 SM".data))).head? with
         | some tok =>
           (match pyFloatStr tok with
            | some v => { repEmptyReport with VisibilityMiles := some v }
            | none => repEmptyReport)
         | none => repEmptyReport) :=
  (C5_visibility repEmptyReport ("XXXX".data) (" 10 SM".data) rfl (by decide)).1

/-- Counterexample for C7: a decode with no cycle line completes without
a report-level error but leaves Cycle absent (None), not at the value 0
the claim states. -/
theorem C7_counterexample :
    (parse_report repNoCycle).map WeatherReport.Cycle = Except.ok none ∧
    ((Except.ok (none : Option Int) : Except PyErr (Option Int)) ≠
      Except.ok (some 0)) :=
  ⟨by decide, by decide⟩

/-- C7 (amended): after a decode that completes without a report-level
error, a cycle line whose value fails integer parsing yields Cycle = 0,
but a report with no cycle line leaves Cycle absent (None) rather than at
a default of 0. -/
theorem C7_cycle_default (r : WeatherReport) (sid data : PyStr)
    (hsid : r.StationID = some sid)
    (hutc : pyContains (" UTC".data) (pyStrip data) = false)
    (hbad : pyIntStr (pyStrip data) = none) :
    processLine r (("cycle:".data) ++ data) = Except.ok { r with Cycle := some 0 } ∧
    (parse_report repBadCycle).map WeatherReport.Cycle = Except.ok (some 0) ∧
    (parse_report repNoCycle).map WeatherReport.Cycle = Except.ok none := by
  refine ⟨?_, by decide, by decide⟩
  have hline : ("cycle:".data) ++ data = ("cycle".data) ++ ':' :: data := by
    rw [show ("cycle:".data) = ("cycle".data) ++ [':'] from by decide]
    simp
  rw [hline]
  have hstripc : pyStrip ("cycle".data) = ("cycle".data) := by decide
  have hfind : pyFind ('(' :: (sid ++ [')'])) ("cycle".data) = none :=
    pyFind_paren_none _ _ (by decide)
  simp only [processLine, pyBreakAt_app ':' ("cycle".data) data (by decide), hsid,
    hstripc, hfind, Option.isSome_none, Bool.false_eq_true, if_false,
    hutc, Bool.false_and,
    (by decide : ¬ ("cycle".data) = ("Temperature".data)),
    (by decide : ¬ ("cycle".data) = ("Windchill".data)),
    (by decide : ¬ ("cycle".data) = ("Wind".data)),
    (by decide : ¬ ("cycle".data) = ("Visibility".data)),
    (by decide : ¬ ("cycle".data) = ("Dew Point".data)),
    (by decide : ¬ ("cycle".data) = ("Relative Humidity".data)),
    (by decide : ¬ ("cycle".data) = ("Pressure (altimeter)".data)),
    (by decide : ¬ ("cycle".data) = ("Weather".data)),
    (by decide : ¬ ("cycle".data) = ("Sky conditions".data)),
    (by decide : ¬ ("cycle".data) = ("ob".data)),
    ite_false, ite_true, if_true, eq_self_iff_true]
  unfold cycleLine
  simp [hbad, hsid]

/-- Witness for C7 at the concrete unparseable cycle value "abc". -/
theorem C7_cycle_default_witness :
    processLine repEmptyReport (("cycle:".data) ++ (" abc".data)) =
      Except.ok { repEmptyReport with Cycle := some 0 } :=
  (C7_cycle_default repEmptyReport ("XXXX".data) (" abc".data) rfl (by decide)
    (by decide)).1
